import Mathlib

/-!
Verification development for the `new-plex-dubs` webhook service.

The Python source (`src/shared.py`, `src/sonarr.py`, `src/radarr.py`) is shallowly
embedded below.  Webhook payloads become a `Json` inductive; Python runtime errors
(`AttributeError`, `IndexError`, ...) become an `Except PyErr` result; the Plex
collection becomes an ordered list of item identifiers; the deletion-ledger file
becomes a list of its text lines (`Option` models a possibly missing file).
External libraries (plexapi, rapidfuzz, the stdlib date parser) are modelled per
their documented behaviour at exactly the call sites this code uses.
-/

set_option maxHeartbeats 1000000
set_option maxRecDepth 8000

/-- A JSON value, as delivered to the webhook handlers by `request.get_json()`.
Numbers are modelled as integers (every numeric field this service reads is an id
or an index). -/
inductive Json where
  | null
  | bool (b : Bool)
  | num (n : Int)
  | str (s : String)
  | arr (elems : List Json)
  | obj (fields : List (String × Json))

/-- Python runtime errors that the handler code can raise. -/
inductive PyErr where
  | attributeError
  | indexError
  | keyError
  | typeError
deriving DecidableEq

/-- Python truthiness: `None`, `False`, `0`, `""`, `[]` and an empty dict are falsy. -/
def pyFalsy : Json → Bool
  | .null => true
  | .bool b => !b
  | .num n => n == 0
  | .str s => s == ""
  | .arr xs => xs.isEmpty
  | .obj kvs => kvs.isEmpty

def pyTruthy (j : Json) : Bool := !pyFalsy j

/-- Python `==` between the scalar shapes this code compares (every comparison site
compares against a string literal or a number; deep list/dict equality is never
exercised and is not modelled). Note `True == 1` in Python. -/
def pyEq (a b : Json) : Bool :=
  match a, b with
  | .null, .null => true
  | .bool x, .bool y => x == y
  | .num x, .num y => x == y
  | .bool x, .num y => (if x then (1 : Int) else 0) == y
  | .num x, .bool y => x == (if y then (1 : Int) else 0)
  | .str x, .str y => x == y
  | _, _ => false

/-- Does the list `p` occur as a prefix of `l`? (Building block for Python's
substring test.) -/
def startsWithSeq [BEq α] : List α → List α → Bool
  | [], _ => true
  | _ :: _, [] => false
  | a :: as, b :: bs => a == b && startsWithSeq as bs

/-- Does the list `p` occur contiguously anywhere inside `l`?  This is Python's
`p in s` test on strings, on the underlying character lists. -/
def containsSeq [BEq α] (p : List α) : List α → Bool
  | [] => p.isEmpty
  | l@(_ :: tl) => startsWithSeq p l || containsSeq p tl

/-- Python `str()` of a JSON-derived value, at the shapes this code feeds it
(ids are numbers or strings in practice; the list/dict repr is never relied on
by any claim and is left as an opaque placeholder). -/
def pyStr : Json → String
  | .null => "None"
  | .bool b => if b then "True" else "False"
  | .num n => toString n
  | .str s => s
  | .arr _ => "[unmodeled-list-repr]"
  | .obj _ => "[unmodeled-dict-repr]"

/-- Python `value.get(key, default)`: a lookup on a dict, `AttributeError` on
anything that is not a dict. -/
def pyGet (j : Json) (k : String) (dflt : Json) : Except PyErr Json :=
  match j with
  | .obj kvs => .ok ((kvs.lookup k).getD dflt)
  | _ => .error .attributeError

/-- Python `value[0]`: head of a list (`IndexError` when empty), first character
of a string, `KeyError` on a dict, `TypeError` otherwise. -/
def pyIndex0 : Json → Except PyErr Json
  | .arr (x :: _) => .ok x
  | .arr [] => .error .indexError
  | .str s =>
    match s.toList with
    | c :: _ => .ok (.str ⟨[c]⟩)
    | [] => .error .indexError
  | .obj _ => .error .keyError
  | _ => .error .typeError

/-- Python `x in container` for a list, string or dict container. -/
def pyContains (container : Json) (x : Json) : Except PyErr Bool :=
  match container with
  | .arr xs => .ok (xs.any (fun v => pyEq x v))
  | .str s =>
    match x with
    | .str t => .ok (containsSeq t.toList s.toList)
    | _ => .error .typeError
  | .obj kvs => .ok (kvs.any (fun kv => pyEq x (.str kv.fst)))
  | _ => .error .typeError

/-- Python iteration over a container (used by `any(... for cf in customFormats)`). -/
def pyIter : Json → Except PyErr (List Json)
  | .arr xs => .ok xs
  | .str s => .ok (s.toList.map (fun c => .str ⟨[c]⟩))
  | .obj kvs => .ok (kvs.map (fun kv => .str kv.fst))
  | _ => .error .typeError

/-- Sequencing of fallible Python evaluation steps. -/
def andThen (x : Except PyErr α) (f : α → Except PyErr β) : Except PyErr β :=
  match x with
  | .error e => .error e
  | .ok a => f a

/-! ## shared.py: `is_english_dubbed` -/

/-- `data.get(k1, {}).get(k2, dflt)`. -/
def getPath2 (data : Json) (k1 k2 : String) (dflt : Json) : Except PyErr Json :=
  andThen (pyGet data k1 (.obj [])) fun v1 => pyGet v1 k2 dflt

/-- `data.get(k1, {}).get(k2, {}).get(k3, dflt)`. -/
def getPath3 (data : Json) (k1 k2 k3 : String) (dflt : Json) : Except PyErr Json :=
  andThen (pyGet data k1 (.obj [])) fun v1 =>
  andThen (pyGet v1 k2 (.obj [])) fun v2 => pyGet v2 k3 dflt

/-- `any(cf.get('name') in ['Anime Dual Audio', 'Dubs Only'] for cf in customFormats)`,
with Python's short-circuiting `any`. -/
def anyDubTag : List Json → Except PyErr Bool
  | [] => .ok false
  | cf :: rest =>
    andThen (pyGet cf "name" .null) fun nm =>
      if pyEq nm (.str "Anime Dual Audio") || pyEq nm (.str "Dubs Only") then .ok true
      else anyDubTag rest

/-- `shared.is_english_dubbed`: audio languages include `'eng'`, or a custom
format is one of the dub-indicating labels. -/
def is_english_dubbed (data : Json) : Except PyErr Bool :=
  andThen (getPath3 data "episodeFile" "mediaInfo" "audioLanguages" (.arr [])) fun al0 =>
  andThen (if pyFalsy al0 then getPath3 data "movieFile" "mediaInfo" "audioLanguages" (.arr []) else .ok al0) fun audio =>
  andThen (pyContains audio (.str "eng")) fun dubbedAudio =>
  andThen (getPath2 data "customFormatInfo" "customFormats" (.arr [])) fun cfs =>
  andThen (pyIter cfs) fun cfItems =>
  andThen (anyDubTag cfItems) fun hasTag =>
  .ok (dubbedAudio || hasTag)

/-! ## shared.py: deletion ledger (`trim_file`, `handle_deletion_event`,
`was_media_deleted`)

The ledger file `/tmp/deleted_media_ids.txt` is modelled by the list of its text
lines (each written as `f"{media_id}\n"`); `Option` distinguishes a missing file. -/

/-- Split a character sequence at every occurrence of `sep` (Python `str.split`). -/
def splitOnChar (sep : Char) : List Char → List (List Char)
  | [] => [[]]
  | c :: rest =>
    match splitOnChar sep rest with
    | h :: t => if c == sep then [] :: h :: t else (c :: h) :: t
    | [] => if c == sep then [[], []] else [[c]]

/-- Python `str.splitlines` on a text made only of `\n`-terminated lines:
split at newlines, without a trailing empty entry. -/
def pySplitlines (cs : List Char) : List (List Char) :=
  let parts := splitOnChar '\n' cs
  if parts.getLast? = some [] then parts.dropLast else parts

/-- The full text of the ledger file: each stored line followed by a newline. -/
def ledgerContent (lines : List String) : List Char :=
  lines.foldr (fun line acc => line.toList ++ '\n' :: acc) []

/-- `shared.trim_file`: keep only the last `max_entries` lines when the file has
more than that many. -/
def trim_file (max_entries : Nat) (lines : List String) : List String :=
  if max_entries < lines.length then lines.drop (lines.length - max_entries) else lines

/-- `shared.handle_deletion_event`: append `f"{media_id}\n"` unless `str(media_id)`
already occurs anywhere in the file text (a substring test, not a line test),
then trim the file to its last 100 lines.  Opening with mode `a+` creates a
missing file, so the result is always a present file. -/
def handle_deletion_event (media_id : Json) (st : Option (List String)) : List String :=
  let lines := st.getD []
  let lines1 :=
    if containsSeq (pyStr media_id).toList (ledgerContent lines) then lines
    else lines ++ [pyStr media_id]
  trim_file 100 lines1

/-- `shared.was_media_deleted`: `False` when the file is missing, otherwise an
exact match of `str(media_id)` against the file's lines. -/
def was_media_deleted (media_id : Json) (st : Option (List String)) : Bool :=
  match st with
  | none => false
  | some lines => (pySplitlines (ledgerContent lines)).any (fun l => l == (pyStr media_id).toList)

/-! ## shared.py: `is_recent_or_upcoming_release`

`datetime.strptime(date_str, '%Y-%m-%d')` is stdlib behaviour, modelled per
CPython: exactly four year digits, one or two month and day digits, then
calendar validation (`ValueError` on failure, which the source catches and turns
into `False`).  Dates are compared through `date.toordinal`, the day count of the
proleptic Gregorian calendar with `0001-01-01 = 1`. -/

def isLeapYear (y : Nat) : Bool := (y % 4 == 0 && y % 100 != 0) || y % 400 == 0

def daysInMonth (y m : Nat) : Nat :=
  match m with
  | 1 => 31
  | 2 => if isLeapYear y then 29 else 28
  | 3 => 31
  | 4 => 30
  | 5 => 31
  | 6 => 30
  | 7 => 31
  | 8 => 31
  | 9 => 30
  | 10 => 31
  | 11 => 30
  | 12 => 31
  | _ => 0

def daysBeforeMonth (y m : Nat) : Nat :=
  ((List.range (m - 1)).map (fun i => daysInMonth y (i + 1))).sum

/-- `datetime.date(y, m, d).toordinal()`. -/
def toOrdinal (y m d : Nat) : Nat :=
  365 * (y - 1) + (y - 1) / 4 - (y - 1) / 100 + (y - 1) / 400 + daysBeforeMonth y m + d

def natOfDigits (cs : List Char) : Nat :=
  cs.foldl (fun acc c => 10 * acc + (c.toNat - 48)) 0

/-- `datetime.strptime(s, '%Y-%m-%d').date()`, returning `none` where CPython
raises `ValueError`: the string must be `YYYY-MM-DD` with a four-digit year,
one- or two-digit month and day, and denote a valid calendar date (year ≥ 1). -/
def parseDate? (s : String) : Option (Nat × Nat × Nat) :=
  match splitOnChar '-' s.toList with
  | [ys, ms, ds] =>
    if ys.length == 4 && ys.all Char.isDigit &&
       Nat.ble 1 ms.length && Nat.ble ms.length 2 && ms.all Char.isDigit &&
       Nat.ble 1 ds.length && Nat.ble ds.length 2 && ds.all Char.isDigit then
      let y := natOfDigits ys
      let m := natOfDigits ms
      let d := natOfDigits ds
      if Nat.ble 1 y && Nat.ble 1 m && Nat.ble m 12 && Nat.ble 1 d && Nat.ble d (daysInMonth y m) then
        some (y, m, d)
      else none
    else none
  | _ => none

/-- The date comparison done by `is_recent_or_upcoming_release` once a date has
been parsed: `0 <= (today - release).days <= MAX_DATE_DIFF or release > today`. -/
def recentCheck (maxDateDiff today : Nat) (s : String) : Bool :=
  match parseDate? s with
  | none => false
  | some (y, m, d) =>
    let rel := toOrdinal y m d
    let daysDiff : Int := (today : Int) - (rel : Int)
    (decide (0 ≤ daysDiff) && decide (daysDiff ≤ (maxDateDiff : Int))) || decide (today < rel)

/-- `shared.is_recent_or_upcoming_release`:  `False` for a missing or empty
date string, `False` on a parse failure (logged, not raised), otherwise the
window / future test.  `today` is the ordinal of the current UTC date. -/
def is_recent_or_upcoming_release (maxDateDiff today : Nat) (date_str : Option String) : Bool :=
  match date_str with
  | none => false
  | some s => if s = "" then false else recentCheck maxDateDiff today s

/-- The same function applied to the raw JSON field the webhook extracts
(`.get('airDate')` can produce any JSON value): falsy values short-circuit to
`False` at `if not date_str`; a truthy non-string reaches `strptime` and raises
`TypeError`. -/
def is_recent_json (maxDateDiff today : Nat) (j : Json) : Except PyErr Bool :=
  if pyTruthy j then
    match j with
    | .str s => .ok (recentCheck maxDateDiff today s)
    | _ => .error .typeError
  else .ok false

/-! ## shared.py: `manage_collection`

Plex state is modelled by the ordered list of the collection's item identifiers,
index 0 first; `none` is an absent collection.  plexapi calls map to list
operations: `createCollection(items=[media])` builds `[media]`;
`addItems([media])` followed by `moveItem(media, after=None)` prepends `media`;
`removeItems(sel)` deletes the selected items; `items()` re-reads the current
order. -/

/-- Python's tail slice `l[-k:]` — for `k = 0` this is `l[0:]`, the whole list. -/
def pyTailSlice (k : Nat) (l : List α) : List α :=
  if k = 0 then l else l.drop (l.length - k)

/-- `shared.manage_collection` for one event: create the collection when absent;
otherwise add-and-front the item when new; finally, when
`len(items) >= MAX_COLLECTION_SIZE`, remove `items[-(len(items) - MAX):]`. -/
def manage_collection [DecidableEq α] (maxSize : Nat) (media : α) (col : Option (List α)) : List α :=
  match col with
  | none => [media]
  | some items =>
    let items1 := if media ∈ items then items else media :: items
    if maxSize ≤ items1.length then
      let toRemove := pyTailSlice (items1.length - maxSize) items1
      items1.filter (fun x => !toRemove.contains x)
    else items1

/-- Reconcile a whole sequence of download events, one at a time, into an
initially absent collection. -/
def reconcileAll (maxSize : Nat) (ids : List Nat) : Option (List Nat) :=
  ids.foldl (fun st a => some (manage_collection maxSize a st)) none

/-! ## shared.py: `get_fuzzy_match`

Modelled from the spec: the similarity scorer itself (`rapidfuzz.process.extractOne`
with its default `WRatio` scorer) is an external library, out of scope per the
spec ("fuzzy-search client libraries themselves" are external collaborators).
The spec's contract is a deterministic best-fuzzy-similarity match on a 0–100
scale with a cutoff; it is modelled here as the normalized Indel similarity
(the core `ratio` of that library): `100 * (1 - dist/(|q|+|t|))`, where the
Indel distance is `|q| + |t| - 2 * lcs(q, t)`.  Scores are kept as exact
fractions and compared by cross-multiplication. -/

/-- One row update of the longest-common-subsequence table. -/
def lcsNext (c : Char) : List Char → List Nat → Nat → List Nat
  | t :: ts, p0 :: p1 :: ps, cur =>
    let v := if t == c then p0 + 1 else max cur p1
    v :: lcsNext c ts (p1 :: ps) v
  | _, _, _ => []

/-- Length of a longest common subsequence. -/
def lcsLen (s1 s2 : List Char) : Nat :=
  (s1.foldl (fun prev c => 0 :: lcsNext c s2 prev 0) (List.replicate (s2.length + 1) 0)).getLastD 0

/-- A similarity score on the 0–100 scale, as the exact fraction `num / den`. -/
structure Score where
  num : Nat
  den : Nat
deriving DecidableEq

def scoreLe (a b : Score) : Bool := Nat.ble (a.num * b.den) (b.num * a.den)

def scoreLt (a b : Score) : Bool := Nat.blt (a.num * b.den) (b.num * a.den)

/-- The similarity of a query against one candidate:
`100 * (2 * lcs) / (|q| + |t|)` (and 0 against an empty pair). -/
def simScore (query cand : String) : Score :=
  let n := query.toList.length + cand.toList.length
  if n = 0 then ⟨0, 1⟩ else ⟨200 * lcsLen query.toList cand.toList, n⟩

/-- Fold step keeping the best-scoring candidate seen so far (ties keep the
earlier candidate: a later one must be strictly better to replace it). -/
def betterOf (query : String) (acc : Option (String × Score)) (t : String) : Option (String × Score) :=
  match acc with
  | none => some (t, simScore query t)
  | some (t0, s0) =>
    if scoreLt s0 (simScore query t) then some (t, simScore query t) else some (t0, s0)

/-- `rapidfuzz.process.extractOne(query, choices, score_cutoff=c)`: the
best-scoring choice, or `None` when there are no choices or the best score is
below the cutoff. -/
def extractOne? (query : String) (choices : List String) (score_cutoff : Nat) :
    Option (String × Score) :=
  match choices.foldl (betterOf query) none with
  | none => none
  | some (t, s) => if scoreLe ⟨score_cutoff, 1⟩ s then some (t, s) else none

/-- `shared.get_fuzzy_match` over the section's titles: `extractOne`, then the
source's (redundant) re-check `result[1] >= score_cutoff`, returning the matched
title (standing for `library_section.get(matched_title)`). -/
def get_fuzzy_match (titles : List String) (query_title : String) (score_cutoff : Nat := 75) :
    Option String :=
  match extractOne? query_title titles score_cutoff with
  | some (t, s) => if scoreLe ⟨score_cutoff, 1⟩ s then some t else none
  | none => none

/-! ## sonarr.py / radarr.py: webhook handlers

Each handler has an extraction phase (the `.get` chains of the first lines,
any of which can raise) and a decision phase (the `if/elif` ladder).  The
handler's observable behaviour is the triple (HTTP response, ledger state after,
action taken); the `AttemptAdd` branch only spawns a background thread, so the
action records the thread's arguments rather than running it. -/

/-- What a webhook invocation did: wrote a deletion record, suppressed a
previously-deleted item, spawned the collection-management thread with the given
arguments, skipped a non-recent non-upgrade download, or skipped for not meeting
the criteria. -/
inductive Classified where
  | recordDeletion (media_id : Json)
  | suppressDeleted (media_id : Json)
  | dispatched (library : String) (args : List Json)
  | skipNotRecent
  | skipCriteria

/-- `data.get('series', {}).get('title', '')`. -/
def seriesTitle (data : Json) : Except PyErr Json :=
  andThen (pyGet data "series" (.obj [])) fun series => pyGet series "title" (.str "")

/-- `data.get('episodes', [{}])[0].get(k, dflt)` — the default only guards a
missing key; a present-but-empty list reaches `[0]` and raises `IndexError`. -/
def epGet (data : Json) (k : String) (dflt : Json) : Except PyErr Json :=
  andThen (pyGet data "episodes" (.arr [.obj []])) fun eps =>
  andThen (pyIndex0 eps) fun ep0 => pyGet ep0 k dflt

/-- `data.get('movie', {}).get(k, dflt)`. -/
def movieGet (data : Json) (k : String) (dflt : Json) : Except PyErr Json :=
  andThen (pyGet data "movie" (.obj [])) fun mv => pyGet mv k dflt

/-- The values `sonarr_webhook` extracts from the payload before classifying.
`eventType`, ids and `isUpgrade` are kept as raw JSON values, exactly as
Python's untyped locals. -/
structure SonarrFields where
  eventType : Json
  showName : Json
  episodeName : Json
  episodeId : Json
  seasonNumber : Json
  episodeNumber : Json
  airDate : Json
  isDubbed : Bool
  isUpgrade : Json
  isRecentRelease : Bool
  deleteReason : Json

/-- The extraction phase of `sonarr_webhook` (source lines 220–231, plus the
`deleteReason` read of line 238, which cannot fail once the payload proved to be
a dict). -/
def sonarrExtract (maxDateDiff today : Nat) (data : Json) : Except PyErr SonarrFields :=
  andThen (pyGet data "eventType" (.str "")) fun eventType =>
  andThen (seriesTitle data) fun showName =>
  andThen (epGet data "title" (.str "")) fun episodeName =>
  andThen (epGet data "id" (.num 0)) fun episodeId =>
  andThen (epGet data "seasonNumber" (.num 0)) fun seasonNumber =>
  andThen (epGet data "episodeNumber" (.num 0)) fun episodeNumber =>
  andThen (epGet data "airDate" .null) fun airDate =>
  andThen (is_english_dubbed data) fun isDubbed =>
  andThen (pyGet data "isUpgrade" (.bool false)) fun isUpgrade =>
  andThen (is_recent_json maxDateDiff today airDate) fun isRecent =>
  andThen (pyGet data "deleteReason" .null) fun deleteReason =>
  .ok ⟨eventType, showName, episodeName, episodeId, seasonNumber, episodeNumber,
       airDate, isDubbed, isUpgrade, isRecent, deleteReason⟩

/-- `sonarr.process_download_event`: dispatch the collection-management thread
for an upgrade or a recent release, otherwise log and skip. -/
def process_download_event (lib : String) (showName seasonNumber episodeNumber : Json)
    (isUpgrade : Json) (isRecent : Bool) : Classified :=
  if pyTruthy isUpgrade then .dispatched lib [showName, seasonNumber, episodeNumber]
  else if isRecent then .dispatched lib [showName, seasonNumber, episodeNumber]
  else .skipNotRecent

/-- The decision ladder of `sonarr_webhook` (source lines 238–248).  The library
name is truthy when non-empty (an unset `PLEX_ANIME_SERIES` is the empty
string). -/
def sonarrDecide (lib : String) (st : Option (List String)) (f : SonarrFields) :
    Classified × Option (List String) :=
  if pyEq f.eventType (.str "EpisodeFileDelete") && pyEq f.deleteReason (.str "upgrade") && f.isDubbed then
    (.recordDeletion f.episodeId, some (handle_deletion_event f.episodeId st))
  else if was_media_deleted f.episodeId st then
    (.suppressDeleted f.episodeId, st)
  else if pyEq f.eventType (.str "Download") && f.isDubbed && !(lib == "") then
    (process_download_event lib f.showName f.seasonNumber f.episodeNumber f.isUpgrade f.isRecentRelease, st)
  else
    (.skipCriteria, st)

/-- `sonarr.sonarr_webhook`: extraction then decision; on success the response is
always `("Webhook received", 200)`; an extraction error propagates (Flask then
answers 500). -/
def sonarr_webhook (lib : String) (maxDateDiff today : Nat) (st : Option (List String))
    (data : Json) : Except PyErr ((String × Nat) × Classified × Option (List String)) :=
  andThen (sonarrExtract maxDateDiff today data) fun f =>
  .ok (("Webhook received", 200), sonarrDecide lib st f)

/-- The values `radarr_webhook` extracts from the payload. -/
structure RadarrFields where
  eventType : Json
  movieTitle : Json
  movieId : Json
  isDubbed : Bool
  isUpgrade : Json
  releaseDate : Json
  isRecentRelease : Bool
  deleteReason : Json

/-- The extraction phase of `radarr_webhook` (source lines 135–142, plus the
safe `deleteReason` read). -/
def radarrExtract (maxDateDiff today : Nat) (data : Json) : Except PyErr RadarrFields :=
  andThen (pyGet data "eventType" (.str "")) fun eventType =>
  andThen (movieGet data "title" (.str "")) fun movieTitle =>
  andThen (movieGet data "id" (.num 0)) fun movieId =>
  andThen (is_english_dubbed data) fun isDubbed =>
  andThen (pyGet data "isUpgrade" (.bool false)) fun isUpgrade =>
  andThen (movieGet data "releaseDate" .null) fun releaseDate =>
  andThen (is_recent_json maxDateDiff today releaseDate) fun isRecent =>
  andThen (pyGet data "deleteReason" .null) fun deleteReason =>
  .ok ⟨eventType, movieTitle, movieId, isDubbed, isUpgrade, releaseDate, isRecent, deleteReason⟩

/-- `radarr.process_radarr_download_event`. -/
def process_radarr_download_event (lib : String) (movieTitle : Json) (isUpgrade : Json)
    (isRecent : Bool) : Classified :=
  if pyTruthy isUpgrade then .dispatched lib [movieTitle]
  else if isRecent then .dispatched lib [movieTitle]
  else .skipNotRecent

/-- The decision ladder of `radarr_webhook` (source lines 146–153). -/
def radarrDecide (lib : String) (st : Option (List String)) (f : RadarrFields) :
    Classified × Option (List String) :=
  if pyEq f.eventType (.str "MovieFileDelete") && pyEq f.deleteReason (.str "upgrade") && f.isDubbed then
    (.recordDeletion f.movieId, some (handle_deletion_event f.movieId st))
  else if was_media_deleted f.movieId st then
    (.suppressDeleted f.movieId, st)
  else if pyEq f.eventType (.str "Download") && f.isDubbed && !(lib == "") then
    (process_radarr_download_event lib f.movieTitle f.isUpgrade f.isRecentRelease, st)
  else
    (.skipCriteria, st)

/-- `radarr.radarr_webhook`. -/
def radarr_webhook (lib : String) (maxDateDiff today : Nat) (st : Option (List String))
    (data : Json) : Except PyErr ((String × Nat) × Classified × Option (List String)) :=
  andThen (radarrExtract maxDateDiff today data) fun f =>
  .ok (("Webhook received", 200), radarrDecide lib st f)

/-! ## Well-shaped payloads

A sufficient (decidable) shape condition on a payload under which the handlers
cannot raise: the payload is an object, each structured field is an object when
present, `customFormats` is an array of objects when present, `episodes` is a
non-empty array with an object head when present, and the date field is a string
or null when present. -/

def isObjOpt : Option Json → Bool
  | none => true
  | some (.obj _) => true
  | _ => false

/-- Shape of `episodeFile` / `movieFile`: when present an object, whose
`mediaInfo` is an object when present, whose `audioLanguages` is an array when
present. -/
def mediaFileOk : Option Json → Bool
  | none => true
  | some (.obj kvs) =>
    (match kvs.lookup "mediaInfo" with
     | none => true
     | some (.obj kvs2) =>
       (match kvs2.lookup "audioLanguages" with
        | none => true
        | some (.arr _) => true
        | _ => false)
     | some _ => false)
  | _ => false

/-- Shape of `customFormatInfo`: when present an object whose `customFormats`
is an array of objects when present. -/
def cfOk : Option Json → Bool
  | none => true
  | some (.obj kvs) =>
    (match kvs.lookup "customFormats" with
     | none => true
     | some (.arr xs) => xs.all (fun cf => match cf with | .obj _ => true | _ => false)
     | some _ => false)
  | _ => false

/-- Shape of a date field: absent, null, or a string. -/
def dateFieldOk : Option Json → Bool
  | none => true
  | some .null => true
  | some (.str _) => true
  | _ => false

/-- Shape of `episodes`: absent, or a non-empty array whose head is an object
with a well-shaped `airDate`. -/
def epsOk : Option Json → Bool
  | none => true
  | some (.arr (.obj fields :: _)) => dateFieldOk (fields.lookup "airDate")
  | _ => false

/-- Shape of `movie`: absent, or an object with a well-shaped `releaseDate`. -/
def movieObjOk : Option Json → Bool
  | none => true
  | some (.obj fields) => dateFieldOk (fields.lookup "releaseDate")
  | _ => false

/-- Well-shaped Sonarr payload. -/
def SonarrWf : Json → Bool
  | .obj kvs =>
    isObjOpt (kvs.lookup "series") && epsOk (kvs.lookup "episodes") &&
    mediaFileOk (kvs.lookup "episodeFile") && mediaFileOk (kvs.lookup "movieFile") &&
    cfOk (kvs.lookup "customFormatInfo")
  | _ => false

/-- Well-shaped Radarr payload. -/
def RadarrWf : Json → Bool
  | .obj kvs =>
    movieObjOk (kvs.lookup "movie") &&
    mediaFileOk (kvs.lookup "episodeFile") && mediaFileOk (kvs.lookup "movieFile") &&
    cfOk (kvs.lookup "customFormatInfo")
  | _ => false

/-! # Theorems

First the general-purpose lemmas shared between claims, then one theorem per
claim (with a witness where the theorem carries hypotheses). -/

theorem andThen_ok (a : α) (f : α → Except PyErr β) : andThen (.ok a) f = f a := rfl

theorem andThen_error (e : PyErr) (f : α → Except PyErr β) :
    andThen (.error e) f = .error e := rfl

/-! ## Ledger lemmas -/

theorem trim_file_eq_drop (maxE : Nat) (l : List String) :
    trim_file maxE l = l.drop (l.length - maxE) := by
  by_cases h : maxE < l.length
  · simp [trim_file, h]
  · simp [trim_file, h, Nat.sub_eq_zero_of_le (Nat.le_of_not_lt h)]

theorem trim_file_length (maxE : Nat) (l : List String) :
    (trim_file maxE l).length = min l.length maxE := by
  by_cases h : maxE < l.length
  · simp only [trim_file, if_pos h, List.length_drop]
    omega
  · simp only [trim_file, if_neg h]
    omega

theorem handle_deletion_event_eq (media_id : Json) (st : Option (List String)) :
    handle_deletion_event media_id st =
      trim_file 100
        (if containsSeq (pyStr media_id).toList (ledgerContent (st.getD [])) then st.getD []
         else st.getD [] ++ [pyStr media_id]) := rfl

/-! ## Collection lemmas -/

theorem manage_collection_member_small {C : Nat} {l : List Nat} {a : Nat}
    (hmem : a ∈ l) (hlen : l.length < C) : manage_collection C a (some l) = l := by
  simp [manage_collection, hmem, Nat.not_le.mpr hlen]

/-! ## Claim C1 -/

/-- C1: the claim fails on the code.  Reconciling the two distinct items `1, 2`
into an initially absent collection with capacity `C = 2` leaves the collection
empty, not holding `min(2, 2) = 2` items: once the collection reaches exactly the
capacity, the trim selects `items[-0:]` — the whole list — and removes every
item. -/
theorem reconcile_distinct_adds_bug :
    reconcileAll 2 [1, 2] = some [] ∧
    List.length ([] : List Nat) ≠ min 2 2 ∧
    reconcileAll 2 [1] = some [1] := by
  refine ⟨by decide, by decide, by decide⟩

/-! ## Claim C2 -/

/-- C2: the claim fails on the code at `S = C`.  A single trimming pass over a
collection whose size equals the capacity (here `[0, 1]` with capacity 2,
reconciling the already-present item 0 so that membership resolution is a no-op)
removes every item instead of `S - C = 0` items.  For `S = 105 > C = 100` the
pass does behave as claimed, removing exactly the 5 tail-most items and leaving
the first 100. -/
theorem trim_at_capacity_bug :
    manage_collection 2 0 (some [0, 1]) = [] ∧
    manage_collection 100 0 (some (List.range 105)) = List.range 100 := by
  refine ⟨by decide, by decide⟩

/-! ## Claim C4 -/

/-- C4: the claim fails on the code.  With a prior ledger holding the single
other id `123` (fewer than 100 other ids), `record(12)` does not make
`was_recorded(12)` true: the presence check `str(media_id) not in file.read()`
is a substring test and `"12"` occurs inside `"123"`, so the append is skipped,
while `was_media_deleted` matches whole lines and stays false.  (The file-absent
case does return false without an error, and an id recorded into a fresh ledger
is reported, as the last two conjuncts check.) -/
theorem record_substring_check_bug :
    handle_deletion_event (.num 12) (some ["123"]) = ["123"] ∧
    was_media_deleted (.num 12) (some (handle_deletion_event (.num 12) (some ["123"]))) = false ∧
    was_media_deleted (.num 12) none = false ∧
    was_media_deleted (.num 42) (some (handle_deletion_event (.num 42) (some []))) = true := by
  refine ⟨by decide, by decide, by decide, by decide⟩

/-! ## Claim C5 -/

/-- C5 counterexample: reconciling the already-present item 1 into the
collection `[1, 2, 3]` whose size equals the capacity 3 does change the
collection — the trimming pass empties it — so the claim's "for every starting
collection state, including one whose size already equals or exceeds the
capacity" is false. -/
theorem reconcile_member_at_capacity_cex :
    manage_collection 3 1 (some [1, 2, 3]) = [] ∧
    manage_collection 3 1 (some [1, 2, 3]) ≠ [1, 2, 3] := by
  refine ⟨by decide, by decide⟩

/-- C5 (amended): reconciling an item that is already a member of a collection
whose size is strictly below the capacity changes nothing at all: no duplicate
is created, no promotion to index 0 happens, the size and every position stay
the same. -/
theorem reconcile_member_noop (C : Nat) (l : List Nat) (a : Nat)
    (hmem : a ∈ l) (hlen : l.length < C) : manage_collection C a (some l) = l :=
  manage_collection_member_small hmem hlen

/-- C5 witness: the amended statement at a concrete input. -/
theorem reconcile_member_noop_witness :
    (2 ∈ [1, 2, 3] ∧ List.length [1, 2, 3] < 5) ∧ manage_collection 5 2 (some [1, 2, 3]) = [1, 2, 3] :=
  ⟨by decide, reconcile_member_noop 5 [1, 2, 3] 2 (by decide) (by decide)⟩

/-! ## Claim C9 -/

/-- C9: after every record operation the ledger holds at most 100 entries; the
record writes at most one appended line, the result is exactly a tail segment of
the appended list (the most-recently-appended records, the oldest dropped
first), and when the appended list is within capacity nothing at all is removed
— capacity eviction is the only removal path. -/
theorem ledger_capacity_invariant (media_id : Json) (st : Option (List String)) :
    ∃ appended : List String,
      (appended = st.getD [] ∨ appended = st.getD [] ++ [pyStr media_id]) ∧
      handle_deletion_event media_id st = appended.drop (appended.length - 100) ∧
      (handle_deletion_event media_id st).length ≤ 100 ∧
      (appended.length ≤ 100 → handle_deletion_event media_id st = appended) := by
  refine ⟨if containsSeq (pyStr media_id).toList (ledgerContent (st.getD [])) then st.getD []
          else st.getD [] ++ [pyStr media_id], ?_, ?_, ?_, ?_⟩
  · split
    · exact Or.inl rfl
    · exact Or.inr rfl
  · rw [handle_deletion_event_eq, trim_file_eq_drop]
  · rw [handle_deletion_event_eq, trim_file_length]
    exact Nat.min_le_right _ _
  · intro hle
    rw [handle_deletion_event_eq]
    unfold trim_file
    rw [if_neg (Nat.not_lt.mpr hle)]

/-- C9 witness: the invariant applied at a concrete record operation. -/
theorem ledger_capacity_invariant_witness :
    ∃ appended : List String,
      (appended = (some ["7"] : Option (List String)).getD [] ∨
        appended = (some ["7"] : Option (List String)).getD [] ++ [pyStr (.num 5)]) ∧
      handle_deletion_event (.num 5) (some ["7"]) = appended.drop (appended.length - 100) ∧
      (handle_deletion_event (.num 5) (some ["7"])).length ≤ 100 ∧
      (appended.length ≤ 100 → handle_deletion_event (.num 5) (some ["7"]) = appended) :=
  ledger_capacity_invariant (.num 5) (some ["7"])

/-! ## Claim C6 -/

/-- C6: `is_recent_or_upcoming_release` returns false for an absent date and for
any unparsable date string (totally, without raising); for a parsed date it
returns true exactly when `0 ≤ today - date ≤ MAX_DATE_DIFF` (in days,
inclusive) or the date is strictly in the future; and the spec's two examples
with `MAX_DATE_DIFF = 4` evaluate as claimed. -/
theorem recent_release_spec (maxDiff today : Nat) :
    is_recent_or_upcoming_release maxDiff today none = false ∧
    (∀ s, parseDate? s = none → is_recent_or_upcoming_release maxDiff today (some s) = false) ∧
    (∀ s y m d, parseDate? s = some (y, m, d) →
      (is_recent_or_upcoming_release maxDiff today (some s) = true ↔
        (0 ≤ (today : Int) - toOrdinal y m d ∧ (today : Int) - toOrdinal y m d ≤ maxDiff) ∨
        today < toOrdinal y m d)) ∧
    is_recent_or_upcoming_release 4 (toOrdinal 2024 1 3) (some "2024-01-01") = true ∧
    is_recent_or_upcoming_release 4 (toOrdinal 2024 1 10) (some "2024-01-01") = false := by
  refine ⟨rfl, ?_, ?_, by decide, by decide⟩
  · intro s hs
    by_cases hse : s = ""
    · simp [is_recent_or_upcoming_release, hse]
    · simp [is_recent_or_upcoming_release, hse, recentCheck, hs]
  · intro s y m d hs
    have hse : s ≠ "" := by
      rintro rfl
      rw [show parseDate? "" = none from by decide] at hs
      exact Option.noConfusion hs
    simp [is_recent_or_upcoming_release, hse, recentCheck, hs]

/-- C6 witness: the unparsable-date conjunct applied at a concrete string. -/
theorem recent_release_spec_witness :
    parseDate? "not-a-date" = none ∧
    is_recent_or_upcoming_release 4 100 (some "not-a-date") = false :=
  ⟨by decide, (recent_release_spec 4 100).2.1 "not-a-date" (by decide)⟩

/-! ## Claim C3 -/

/-- C3: the decision ladder evaluates its rules in order with first match
winning.  (1) A matching file-delete/upgrade/dubbed event yields
`recordDeletion` and runs the ledger write.  (2) Whenever rule (1) does not
match and the ledger reports the id, the event is suppressed regardless of its
event type.  (3) Whenever rule (1) or the ledger matches, the disposition is
never an `AttemptAdd` dispatch or a download skip.  (4) The same holds for the
Radarr ladder.  (5–7) Concretely: a dubbed upgrade-delete for episode 42 writes
42 to the ledger; the subsequent dubbed, upgraded, otherwise-eligible download
of 42 is suppressed; and the identical download against an empty ledger is
dispatched (showing it was otherwise eligible). -/
theorem classifier_rule_order :
    (∀ (lib : String) (st : Option (List String)) (f : SonarrFields),
      (pyEq f.eventType (.str "EpisodeFileDelete") && pyEq f.deleteReason (.str "upgrade") && f.isDubbed) = true →
      sonarrDecide lib st f = (.recordDeletion f.episodeId, some (handle_deletion_event f.episodeId st))) ∧
    (∀ (lib : String) (st : Option (List String)) (f : SonarrFields),
      (pyEq f.eventType (.str "EpisodeFileDelete") && pyEq f.deleteReason (.str "upgrade") && f.isDubbed) = false →
      was_media_deleted f.episodeId st = true →
      sonarrDecide lib st f = (.suppressDeleted f.episodeId, st)) ∧
    (∀ (lib : String) (st : Option (List String)) (f : SonarrFields),
      ((pyEq f.eventType (.str "EpisodeFileDelete") && pyEq f.deleteReason (.str "upgrade") && f.isDubbed) = true ∨
        was_media_deleted f.episodeId st = true) →
      (sonarrDecide lib st f).1 = .recordDeletion f.episodeId ∨
      (sonarrDecide lib st f).1 = .suppressDeleted f.episodeId) ∧
    (∀ (lib : String) (st : Option (List String)) (f : RadarrFields),
      (pyEq f.eventType (.str "MovieFileDelete") && pyEq f.deleteReason (.str "upgrade") && f.isDubbed) = false →
      was_media_deleted f.movieId st = true →
      radarrDecide lib st f = (.suppressDeleted f.movieId, st)) ∧
    sonarr_webhook "Anime" 4 (toOrdinal 2024 1 3) (some [])
      (.obj [("eventType", .str "EpisodeFileDelete"), ("deleteReason", .str "upgrade"),
             ("episodes", .arr [.obj [("id", .num 42)]]),
             ("episodeFile", .obj [("mediaInfo", .obj [("audioLanguages", .arr [.str "eng"])])])])
      = .ok (("Webhook received", 200), .recordDeletion (.num 42), some ["42"]) ∧
    sonarr_webhook "Anime" 4 (toOrdinal 2024 1 3) (some ["42"])
      (.obj [("eventType", .str "Download"), ("isUpgrade", .bool true),
             ("episodes", .arr [.obj [("id", .num 42), ("airDate", .str "2024-01-01")]]),
             ("episodeFile", .obj [("mediaInfo", .obj [("audioLanguages", .arr [.str "eng"])])])])
      = .ok (("Webhook received", 200), .suppressDeleted (.num 42), some ["42"]) ∧
    sonarr_webhook "Anime" 4 (toOrdinal 2024 1 3) (some [])
      (.obj [("eventType", .str "Download"), ("isUpgrade", .bool true),
             ("episodes", .arr [.obj [("id", .num 42), ("airDate", .str "2024-01-01")]]),
             ("episodeFile", .obj [("mediaInfo", .obj [("audioLanguages", .arr [.str "eng"])])])])
      = .ok (("Webhook received", 200), .dispatched "Anime" [.str "", .num 0, .num 0], some []) := by
  refine ⟨?_, ?_, ?_, ?_, rfl, rfl, rfl⟩
  · intro lib st f h
    simp [sonarrDecide, h]
  · intro lib st f h1 h2
    simp [sonarrDecide, h1, h2]
  · intro lib st f h
    rcases h with h1 | h2
    · left
      simp [sonarrDecide, h1]
    · by_cases h1 : (pyEq f.eventType (.str "EpisodeFileDelete") && pyEq f.deleteReason (.str "upgrade") && f.isDubbed) = true
      · left
        simp [sonarrDecide, h1]
      · right
        have h1' := Bool.eq_false_iff.mpr h1
        simp [sonarrDecide, h1', h2]
  · intro lib st f h1 h2
    simp [radarrDecide, h1, h2]

/-- C3 witness: rule (1) applied at a concrete field record and ledger. -/
theorem classifier_rule_order_witness :
    sonarrDecide "A" (some [])
      ⟨.str "EpisodeFileDelete", .str "Show", .str "Ep", .num 7, .num 1, .num 2, .null,
        true, .bool false, false, .str "upgrade"⟩
      = (.recordDeletion (.num 7),
         some (handle_deletion_event (.num 7) (some []))) :=
  classifier_rule_order.1 "A" (some [])
    ⟨.str "EpisodeFileDelete", .str "Show", .str "Ep", .num 7, .num 1, .num 2, .null,
      true, .bool false, false, .str "upgrade"⟩ (by decide)

/-! ## Fuzzy-matching lemmas -/

theorem scoreLe_refl (a : Score) : scoreLe a a = true := by
  simp [scoreLe, Nat.ble_eq]

theorem scoreLt_imp_le {a b : Score} (h : scoreLt a b = true) : scoreLe a b = true := by
  simp only [scoreLt, Nat.blt_eq] at h
  simp only [scoreLe, Nat.ble_eq]
  omega

theorem not_scoreLt_imp_le {a b : Score} (h : scoreLt a b = false) : scoreLe b a = true := by
  simp only [scoreLt, Bool.eq_false_iff, ne_eq, Nat.blt_eq] at h
  simp only [scoreLe, Nat.ble_eq]
  omega

theorem scoreLt_imp_not_le {a b : Score} (h : scoreLt a b = true) : scoreLe b a = false := by
  simp only [scoreLt, Nat.blt_eq] at h
  simp only [scoreLe, Bool.eq_false_iff, ne_eq, Nat.ble_eq]
  omega

theorem scoreLe_trans {a b c : Score} (hb : 0 < b.den)
    (h1 : scoreLe a b = true) (h2 : scoreLe b c = true) : scoreLe a c = true := by
  simp only [scoreLe, Nat.ble_eq] at h1 h2 ⊢
  have h1' : a.num * b.den * c.den ≤ b.num * a.den * c.den := Nat.mul_le_mul_right _ h1
  have h2' : b.num * c.den * a.den ≤ c.num * b.den * a.den := Nat.mul_le_mul_right _ h2
  have key : a.num * c.den * b.den ≤ c.num * a.den * b.den := by
    calc a.num * c.den * b.den = a.num * b.den * c.den := by ring
    _ ≤ b.num * a.den * c.den := h1'
    _ = b.num * c.den * a.den := by ring
    _ ≤ c.num * b.den * a.den := h2'
    _ = c.num * a.den * b.den := by ring
  exact Nat.le_of_mul_le_mul_right key hb

theorem simScore_den_pos (q t : String) : 0 < (simScore q t).den := by
  show 0 < (if q.toList.length + t.toList.length = 0 then (⟨0, 1⟩ : Score)
            else ⟨200 * lcsLen q.toList t.toList, q.toList.length + t.toList.length⟩).den
  split
  · exact Nat.one_pos
  · rename_i h
    show 0 < q.toList.length + t.toList.length
    omega

theorem betterOf_some_spec (q t0 t : String) :
    ∃ t1, betterOf q (some (t0, simScore q t0)) t = some (t1, simScore q t1) ∧
      scoreLe (simScore q t) (simScore q t1) = true ∧
      scoreLe (simScore q t0) (simScore q t1) = true ∧
      (t1 = t ∨ betterOf q (some (t0, simScore q t0)) t = some (t0, simScore q t0)) := by
  by_cases hlt : scoreLt (simScore q t0) (simScore q t) = true
  · refine ⟨t, ?_, scoreLe_refl _, scoreLt_imp_le hlt, Or.inl rfl⟩
    simp [betterOf, hlt]
  · have hlt' : scoreLt (simScore q t0) (simScore q t) = false := Bool.eq_false_iff.mpr hlt
    refine ⟨t0, ?_, not_scoreLt_imp_le hlt', scoreLe_refl _, Or.inr ?_⟩
    · simp [betterOf, hlt']
    · simp [betterOf, hlt']

/-- Soundness and maximality of the best-candidate fold underlying
`extractOne?`: a `none` result means no candidates and an empty accumulator; a
`some` result is a candidate (or the accumulator) carrying its own similarity
score, at least as large as every candidate's score and the accumulator's. -/
theorem fold_betterOf_spec (q : String) :
    ∀ (ts : List String) (acc : Option (String × Score)),
      (acc = none ∨ ∃ t0, acc = some (t0, simScore q t0)) →
      (ts.foldl (betterOf q) acc = none → acc = none ∧ ts = []) ∧
      (∀ r, ts.foldl (betterOf q) acc = some r →
        ((r.1 ∈ ts ∧ r.2 = simScore q r.1) ∨ acc = some r) ∧
        (∀ t ∈ ts, scoreLe (simScore q t) r.2 = true) ∧
        (∀ a, acc = some a → scoreLe a.2 r.2 = true)) := by
  intro ts
  induction ts with
  | nil =>
    intro acc hacc
    refine ⟨fun h => ⟨h, rfl⟩, fun r hr => ⟨Or.inr hr, ?_, ?_⟩⟩
    · intro u hu
      exact absurd hu (List.not_mem_nil u)
    · intro a ha
      rw [List.foldl_nil] at hr
      rw [ha] at hr
      cases hr
      exact scoreLe_refl _
  | cons t ts ih =>
    intro acc hacc
    have hstep : ∃ t1, betterOf q acc t = some (t1, simScore q t1) ∧
        scoreLe (simScore q t) (simScore q t1) = true ∧
        (∀ a, acc = some a → scoreLe a.2 (simScore q t1) = true) ∧
        (t1 = t ∨ betterOf q acc t = acc) := by
      rcases hacc with rfl | ⟨t0, rfl⟩
      · exact ⟨t, rfl, scoreLe_refl _, fun a ha => Option.noConfusion ha, Or.inl rfl⟩
      · obtain ⟨t1, hb, hle1, hle0, hcase⟩ := betterOf_some_spec q t0 t
        refine ⟨t1, hb, hle1, ?_, hcase⟩
        intro a ha
        injection ha with ha'
        rw [ha'.symm]
        exact hle0
    obtain ⟨t1, hb, hle_t, hle_acc, hcase⟩ := hstep
    have ih' := ih (betterOf q acc t) (Or.inr ⟨t1, hb⟩)
    constructor
    · intro h
      rw [List.foldl_cons] at h
      obtain ⟨hnone, -⟩ := ih'.1 h
      rw [hb] at hnone
      exact Option.noConfusion hnone
    · intro r hr
      rw [List.foldl_cons] at hr
      obtain ⟨hmem, hge, hgeacc⟩ := ih'.2 r hr
      have ht1_le_r : scoreLe (simScore q t1) r.2 = true := hgeacc (t1, simScore q t1) hb
      refine ⟨?_, ?_, ?_⟩
      · rcases hmem with ⟨hmem1, hmem2⟩ | heq
        · exact Or.inl ⟨List.mem_cons_of_mem t hmem1, hmem2⟩
        · have hr_eq : (t1, simScore q t1) = r := by
            have := hb.symm.trans heq
            injection this
          rcases hcase with h1 | h1
          · subst h1
            refine Or.inl ⟨?_, ?_⟩
            · rw [hr_eq.symm]
              exact List.mem_cons_self t1 ts
            · rw [hr_eq.symm]
          · exact Or.inr (h1.symm.trans heq)
      · intro u hu
        rcases List.mem_cons.mp hu with rfl | hu'
        · exact scoreLe_trans (simScore_den_pos q t1) hle_t ht1_le_r
        · exact hge u hu'
      · intro a ha
        exact scoreLe_trans (simScore_den_pos q t1) (hle_acc a ha) ht1_le_r

/-! ## Claim C8 -/

/-- C8: `get_fuzzy_match` returns no match on an empty candidate list; returns
no match when every candidate's similarity score is strictly below the cutoff;
otherwise deterministically returns a best-scoring candidate (its score at
least every other candidate's).  Concretely, "Attak on Titan" against the two
example candidates at cutoff 75 resolves to "Attack on Titan", and "Xyzzy
Nonexistent Show" yields no match. -/
theorem fuzzy_match_spec :
    (∀ q c, get_fuzzy_match [] q c = none) ∧
    (∀ q c ts, (∀ t ∈ ts, scoreLt (simScore q t) ⟨c, 1⟩ = true) →
      get_fuzzy_match ts q c = none) ∧
    (∀ q c ts, (∃ t ∈ ts, scoreLe ⟨c, 1⟩ (simScore q t) = true) →
      ∃ b, get_fuzzy_match ts q c = some b ∧ b ∈ ts ∧
        ∀ u ∈ ts, scoreLe (simScore q u) (simScore q b) = true) ∧
    get_fuzzy_match ["Attack on Titan", "Attack on Titan: Final Season"] "Attak on Titan" 75
      = some "Attack on Titan" ∧
    get_fuzzy_match ["Attack on Titan", "Attack on Titan: Final Season"] "Xyzzy Nonexistent Show" 75
      = none := by
  refine ⟨fun q c => rfl, ?_, ?_, by decide, by decide⟩
  · intro q c ts hlt
    rcases hfold : ts.foldl (betterOf q) none with _ | ⟨t, s⟩
    · simp only [get_fuzzy_match, extractOne?, hfold]
    · obtain ⟨hmem, -, -⟩ := (fold_betterOf_spec q ts none (Or.inl rfl)).2 (t, s) hfold
      rcases hmem with ⟨ht_mem, hs_eq⟩ | habs
      · have hs_eq' : s = simScore q t := hs_eq
        have ht_mem' : t ∈ ts := ht_mem
        have hnotle : scoreLe ⟨c, 1⟩ s = false := by
          rw [hs_eq']
          exact scoreLt_imp_not_le (hlt t ht_mem')
        simp only [get_fuzzy_match, extractOne?, hfold, hnotle, Bool.false_eq_true, if_false]
      · exact absurd habs (by simp)
  · intro q c ts hex
    obtain ⟨t, ht, htc⟩ := hex
    rcases hfold : ts.foldl (betterOf q) none with _ | ⟨b, s⟩
    · obtain ⟨-, hnil⟩ := (fold_betterOf_spec q ts none (Or.inl rfl)).1 hfold
      rw [hnil] at ht
      exact absurd ht (List.not_mem_nil t)
    · obtain ⟨hmem, hge, -⟩ := (fold_betterOf_spec q ts none (Or.inl rfl)).2 (b, s) hfold
      rcases hmem with ⟨hb_mem, hs_eq⟩ | habs
      · have hs_eq' : s = simScore q b := hs_eq
        have hb_mem' : b ∈ ts := hb_mem
        have hcs : scoreLe ⟨c, 1⟩ s = true :=
          scoreLe_trans (simScore_den_pos q t) htc (hge t ht)
        refine ⟨b, ?_, hb_mem', ?_⟩
        · simp only [get_fuzzy_match, extractOne?, hfold, hcs, if_true]
        · intro u hu
          have h : scoreLe (simScore q u) s = true := hge u hu
          rw [hs_eq'] at h
          exact h
      · exact absurd habs (by simp)

/-- C8 witness: the below-cutoff conjunct applied at the spec's concrete
no-match example. -/
theorem fuzzy_match_spec_witness :
    get_fuzzy_match ["Attack on Titan", "Attack on Titan: Final Season"]
      "Xyzzy Nonexistent Show" 75 = none :=
  fuzzy_match_spec.2.1 "Xyzzy Nonexistent Show" 75
    ["Attack on Titan", "Attack on Titan: Final Season"] (by decide)

/-! ## Well-formed payloads cannot make the handlers raise -/

theorem recent_json_shape_ok (m t : Nat) (v : Json)
    (h : v = Json.null ∨ ∃ s, v = Json.str s) : ∃ b, is_recent_json m t v = .ok b := by
  rcases h with rfl | ⟨s, rfl⟩
  · exact ⟨false, rfl⟩
  · by_cases hs : s = ""
    · subst hs
      exact ⟨false, rfl⟩
    · refine ⟨recentCheck m t s, ?_⟩
      simp [is_recent_json, pyTruthy, pyFalsy, hs]

theorem seriesTitle_ok {kvs : List (String × Json)}
    (h : isObjOpt (kvs.lookup "series") = true) : ∃ v, seriesTitle (.obj kvs) = .ok v := by
  cases hC : seriesTitle (.obj kvs) with
  | ok v => exact ⟨v, rfl⟩
  | error e =>
    exfalso
    cases hlk : kvs.lookup "series" with
    | none => simp [seriesTitle, pyGet, hlk, andThen] at hC
    | some v =>
      rw [hlk] at h
      cases v <;> simp_all [seriesTitle, pyGet, andThen, isObjOpt]

theorem epGet_ok {kvs : List (String × Json)}
    (h : epsOk (kvs.lookup "episodes") = true) (k : String) (d : Json) :
    ∃ v, epGet (.obj kvs) k d = .ok v := by
  cases hC : epGet (.obj kvs) k d with
  | ok v => exact ⟨v, rfl⟩
  | error e =>
    exfalso
    cases hlk : kvs.lookup "episodes" with
    | none => simp [epGet, pyGet, hlk, andThen, pyIndex0] at hC
    | some v =>
      rw [hlk] at h
      cases v with
      | arr xs =>
        cases xs with
        | nil => simp [epsOk] at h
        | cons x rest =>
          cases x <;> simp_all [epGet, pyGet, andThen, pyIndex0, epsOk]
      | null => simp [epsOk] at h
      | bool b => simp [epsOk] at h
      | num n => simp [epsOk] at h
      | str s => simp [epsOk] at h
      | obj kvs2 => simp [epsOk] at h

theorem epGet_airDate_ok {kvs : List (String × Json)}
    (h : epsOk (kvs.lookup "episodes") = true) :
    ∃ v, epGet (.obj kvs) "airDate" .null = .ok v ∧ (v = Json.null ∨ ∃ s, v = Json.str s) := by
  cases hlk : kvs.lookup "episodes" with
  | none =>
    refine ⟨.null, ?_, Or.inl rfl⟩
    simp [epGet, pyGet, hlk, andThen, pyIndex0]
  | some v =>
    rw [hlk] at h
    cases v with
    | arr xs =>
      cases xs with
      | nil => simp [epsOk] at h
      | cons x rest =>
        cases x with
        | obj fxs =>
          have h' : dateFieldOk (fxs.lookup "airDate") = true := by simpa [epsOk] using h
          cases hlk2 : fxs.lookup "airDate" with
          | none =>
            refine ⟨.null, ?_, Or.inl rfl⟩
            simp [epGet, pyGet, hlk, andThen, pyIndex0, hlk2]
          | some w =>
            rw [hlk2] at h'
            cases w with
            | null =>
              refine ⟨.null, ?_, Or.inl rfl⟩
              simp [epGet, pyGet, hlk, andThen, pyIndex0, hlk2]
            | str s =>
              refine ⟨.str s, ?_, Or.inr ⟨s, rfl⟩⟩
              simp [epGet, pyGet, hlk, andThen, pyIndex0, hlk2]
            | bool b => simp [dateFieldOk] at h'
            | num n => simp [dateFieldOk] at h'
            | arr ys => simp [dateFieldOk] at h'
            | obj kvs2 => simp [dateFieldOk] at h'
        | null => simp [epsOk] at h
        | bool b => simp [epsOk] at h
        | num n => simp [epsOk] at h
        | str s => simp [epsOk] at h
        | arr ys => simp [epsOk] at h
    | null => simp [epsOk] at h
    | bool b => simp [epsOk] at h
    | num n => simp [epsOk] at h
    | str s => simp [epsOk] at h
    | obj kvs2 => simp [epsOk] at h

theorem audio_path_ok {kvs : List (String × Json)} {K : String}
    (h : mediaFileOk (kvs.lookup K) = true) :
    ∃ xs, getPath3 (.obj kvs) K "mediaInfo" "audioLanguages" (.arr []) = .ok (.arr xs) := by
  cases hlk : kvs.lookup K with
  | none => exact ⟨[], by simp [getPath3, pyGet, hlk, andThen]⟩
  | some v =>
    rw [hlk] at h
    cases v with
    | obj kvs2 =>
      cases hlk2 : kvs2.lookup "mediaInfo" with
      | none => exact ⟨[], by simp [getPath3, pyGet, hlk, hlk2, andThen]⟩
      | some v2 =>
        cases v2 with
        | obj kvs3 =>
          cases hlk3 : kvs3.lookup "audioLanguages" with
          | none => exact ⟨[], by simp [getPath3, pyGet, hlk, hlk2, hlk3, andThen]⟩
          | some v3 =>
            cases v3 with
            | arr xs => exact ⟨xs, by simp [getPath3, pyGet, hlk, hlk2, hlk3, andThen]⟩
            | null => simp [mediaFileOk, hlk2, hlk3] at h
            | bool b => simp [mediaFileOk, hlk2, hlk3] at h
            | num n => simp [mediaFileOk, hlk2, hlk3] at h
            | str s => simp [mediaFileOk, hlk2, hlk3] at h
            | obj kvs4 => simp [mediaFileOk, hlk2, hlk3] at h
        | null => simp [mediaFileOk, hlk2] at h
        | bool b => simp [mediaFileOk, hlk2] at h
        | num n => simp [mediaFileOk, hlk2] at h
        | str s => simp [mediaFileOk, hlk2] at h
        | arr ys => simp [mediaFileOk, hlk2] at h
    | null => simp [mediaFileOk] at h
    | bool b => simp [mediaFileOk] at h
    | num n => simp [mediaFileOk] at h
    | str s => simp [mediaFileOk] at h
    | arr ys => simp [mediaFileOk] at h

theorem customFormats_ok {kvs : List (String × Json)}
    (h : cfOk (kvs.lookup "customFormatInfo") = true) :
    ∃ xs, getPath2 (.obj kvs) "customFormatInfo" "customFormats" (.arr []) = .ok (.arr xs) ∧
      ∀ cf ∈ xs, ∃ f, cf = Json.obj f := by
  cases hlk : kvs.lookup "customFormatInfo" with
  | none => exact ⟨[], by simp [getPath2, pyGet, hlk, andThen], by simp⟩
  | some v =>
    rw [hlk] at h
    cases v with
    | obj kvs2 =>
      cases hlk2 : kvs2.lookup "customFormats" with
      | none => exact ⟨[], by simp [getPath2, pyGet, hlk, hlk2, andThen], by simp⟩
      | some v2 =>
        cases v2 with
        | arr xs =>
          refine ⟨xs, by simp [getPath2, pyGet, hlk, hlk2, andThen], ?_⟩
          have h' : xs.all (fun cf => match cf with | .obj _ => true | _ => false) = true := by
            simpa [cfOk, hlk2] using h
          intro cf hcf
          have hx := (List.all_eq_true.mp h') cf hcf
          cases cf <;> simp_all
        | null => simp [cfOk, hlk2] at h
        | bool b => simp [cfOk, hlk2] at h
        | num n => simp [cfOk, hlk2] at h
        | str s => simp [cfOk, hlk2] at h
        | obj kvs3 => simp [cfOk, hlk2] at h
    | null => simp [cfOk] at h
    | bool b => simp [cfOk] at h
    | num n => simp [cfOk] at h
    | str s => simp [cfOk] at h
    | arr ys => simp [cfOk] at h

theorem anyDubTag_ok (xs : List Json) (h : ∀ cf ∈ xs, ∃ f, cf = Json.obj f) :
    ∃ b, anyDubTag xs = .ok b := by
  induction xs with
  | nil => exact ⟨false, rfl⟩
  | cons cf rest ih =>
    obtain ⟨f, rfl⟩ := h cf (List.mem_cons_self _ _)
    obtain ⟨b, hb⟩ := ih (fun x hx => h x (List.mem_cons_of_mem _ hx))
    by_cases hname : (pyEq ((f.lookup "name").getD .null) (.str "Anime Dual Audio") ||
        pyEq ((f.lookup "name").getD .null) (.str "Dubs Only")) = true
    · exact ⟨true, by simp [anyDubTag, pyGet, andThen, hname]⟩
    · have hname' := Bool.eq_false_iff.mpr hname
      exact ⟨b, by simp [anyDubTag, pyGet, andThen, hname', hb]⟩

theorem is_english_dubbed_ok {kvs : List (String × Json)}
    (h1 : mediaFileOk (kvs.lookup "episodeFile") = true)
    (h2 : mediaFileOk (kvs.lookup "movieFile") = true)
    (h3 : cfOk (kvs.lookup "customFormatInfo") = true) :
    ∃ b, is_english_dubbed (.obj kvs) = .ok b := by
  obtain ⟨xs1, hx1⟩ := audio_path_ok h1
  obtain ⟨xs2, hx2⟩ := audio_path_ok h2
  obtain ⟨cfs, hcf, hcfobj⟩ := customFormats_ok h3
  obtain ⟨bt, hbt⟩ := anyDubTag_ok cfs hcfobj
  cases hC : is_english_dubbed (.obj kvs) with
  | ok b => exact ⟨b, rfl⟩
  | error e =>
    exfalso
    by_cases hfalsy : pyFalsy (.arr xs1) = true
    · simp [is_english_dubbed, hx1, andThen, hfalsy, hx2, pyContains, hcf, pyIter, hbt] at hC
    · have hfalsy' := Bool.eq_false_iff.mpr hfalsy
      simp [is_english_dubbed, hx1, andThen, hfalsy', pyContains, hcf, pyIter, hbt] at hC

theorem movieGet_ok {kvs : List (String × Json)}
    (h : movieObjOk (kvs.lookup "movie") = true) (k : String) (d : Json) :
    ∃ v, movieGet (.obj kvs) k d = .ok v := by
  cases hC : movieGet (.obj kvs) k d with
  | ok v => exact ⟨v, rfl⟩
  | error e =>
    exfalso
    cases hlk : kvs.lookup "movie" with
    | none => simp [movieGet, pyGet, hlk, andThen] at hC
    | some v =>
      rw [hlk] at h
      cases v <;> simp_all [movieGet, pyGet, andThen, movieObjOk]

theorem movieGet_releaseDate_ok {kvs : List (String × Json)}
    (h : movieObjOk (kvs.lookup "movie") = true) :
    ∃ v, movieGet (.obj kvs) "releaseDate" .null = .ok v ∧
      (v = Json.null ∨ ∃ s, v = Json.str s) := by
  cases hlk : kvs.lookup "movie" with
  | none =>
    refine ⟨.null, ?_, Or.inl rfl⟩
    simp [movieGet, pyGet, hlk, andThen]
  | some v =>
    rw [hlk] at h
    cases v with
    | obj fxs =>
      have h' : dateFieldOk (fxs.lookup "releaseDate") = true := by simpa [movieObjOk] using h
      cases hlk2 : fxs.lookup "releaseDate" with
      | none =>
        refine ⟨.null, ?_, Or.inl rfl⟩
        simp [movieGet, pyGet, hlk, andThen, hlk2]
      | some w =>
        rw [hlk2] at h'
        cases w with
        | null =>
          refine ⟨.null, ?_, Or.inl rfl⟩
          simp [movieGet, pyGet, hlk, andThen, hlk2]
        | str s =>
          refine ⟨.str s, ?_, Or.inr ⟨s, rfl⟩⟩
          simp [movieGet, pyGet, hlk, andThen, hlk2]
        | bool b => simp [dateFieldOk] at h'
        | num n => simp [dateFieldOk] at h'
        | arr ys => simp [dateFieldOk] at h'
        | obj kvs2 => simp [dateFieldOk] at h'
    | null => simp [movieObjOk] at h
    | bool b => simp [movieObjOk] at h
    | num n => simp [movieObjOk] at h
    | str s => simp [movieObjOk] at h
    | arr ys => simp [movieObjOk] at h

theorem sonarrExtract_ok {kvs : List (String × Json)}
    (hwf : SonarrWf (.obj kvs) = true) (m t : Nat) :
    ∃ f, sonarrExtract m t (.obj kvs) = .ok f := by
  have hwf' := hwf
  simp only [SonarrWf, Bool.and_eq_true] at hwf'
  obtain ⟨⟨⟨⟨hser, heps⟩, hef⟩, hmf⟩, hcfi⟩ := hwf'
  obtain ⟨vTitle, hTitle⟩ := seriesTitle_ok hser
  obtain ⟨v1, h1⟩ := epGet_ok heps "title" (.str "")
  obtain ⟨v2, h2⟩ := epGet_ok heps "id" (.num 0)
  obtain ⟨v3, h3⟩ := epGet_ok heps "seasonNumber" (.num 0)
  obtain ⟨v4, h4⟩ := epGet_ok heps "episodeNumber" (.num 0)
  obtain ⟨vA, hA, hAshape⟩ := epGet_airDate_ok heps
  obtain ⟨bD, hD⟩ := is_english_dubbed_ok hef hmf hcfi
  obtain ⟨bR, hR⟩ := recent_json_shape_ok m t vA hAshape
  cases hC : sonarrExtract m t (.obj kvs) with
  | ok f => exact ⟨f, rfl⟩
  | error e =>
    exfalso
    simp [sonarrExtract, pyGet, andThen, hTitle, h1, h2, h3, h4, hA, hD, hR] at hC

theorem radarrExtract_ok {kvs : List (String × Json)}
    (hwf : RadarrWf (.obj kvs) = true) (m t : Nat) :
    ∃ f, radarrExtract m t (.obj kvs) = .ok f := by
  have hwf' := hwf
  simp only [RadarrWf, Bool.and_eq_true] at hwf'
  obtain ⟨⟨⟨hmov, hef⟩, hmf⟩, hcfi⟩ := hwf'
  obtain ⟨v1, h1⟩ := movieGet_ok hmov "title" (.str "")
  obtain ⟨v2, h2⟩ := movieGet_ok hmov "id" (.num 0)
  obtain ⟨vR, hRd, hRshape⟩ := movieGet_releaseDate_ok hmov
  obtain ⟨bD, hD⟩ := is_english_dubbed_ok hef hmf hcfi
  obtain ⟨bR, hR⟩ := recent_json_shape_ok m t vR hRshape
  cases hC : radarrExtract m t (.obj kvs) with
  | ok f => exact ⟨f, rfl⟩
  | error e =>
    exfalso
    simp [radarrExtract, pyGet, andThen, h1, h2, hRd, hD, hR] at hC

/-! ## Claim C7 -/

/-- C7 counterexample: a payload whose `episodes` field is a present but empty
array makes the Sonarr handler raise `IndexError` at
`data.get('episodes', [{}])[0]` (Flask then answers 500), instead of returning
`("Webhook received", 200)`. -/
theorem empty_episodes_crash_cex :
    sonarr_webhook "Anime" 4 0 (some []) (.obj [("episodes", .arr [])]) = .error .indexError := rfl

/-- C7 (amended): for payloads that are JSON objects whose present fields are
well shaped — `series`/`movie`/`episodeFile`/`movieFile`/`customFormatInfo`
objects when present, `customFormats` an array of objects when present,
`episodes` a non-empty array with an object head when present, the date field a
string or null — every missing field is defaulted, classification completes
without raising and the handler returns exactly `("Webhook received", 200)`.
(A present-but-empty `episodes` array instead raises, per the counterexample.) -/
theorem webhook_ok_wellformed (lib : String) (maxDiff today : Nat)
    (st : Option (List String)) (data : Json) :
    (SonarrWf data = true →
      ∃ act st', sonarr_webhook lib maxDiff today st data = .ok (("Webhook received", 200), act, st')) ∧
    (RadarrWf data = true →
      ∃ act st', radarr_webhook lib maxDiff today st data = .ok (("Webhook received", 200), act, st')) := by
  constructor
  · intro hwf
    cases data with
    | obj kvs =>
      obtain ⟨f, hf⟩ := sonarrExtract_ok hwf maxDiff today
      exact ⟨(sonarrDecide lib st f).1, (sonarrDecide lib st f).2, by
        simp [sonarr_webhook, hf, andThen]⟩
    | null => simp [SonarrWf] at hwf
    | bool b => simp [SonarrWf] at hwf
    | num n => simp [SonarrWf] at hwf
    | str s => simp [SonarrWf] at hwf
    | arr xs => simp [SonarrWf] at hwf
  · intro hwf
    cases data with
    | obj kvs =>
      obtain ⟨f, hf⟩ := radarrExtract_ok hwf maxDiff today
      exact ⟨(radarrDecide lib st f).1, (radarrDecide lib st f).2, by
        simp [radarr_webhook, hf, andThen]⟩
    | null => simp [RadarrWf] at hwf
    | bool b => simp [RadarrWf] at hwf
    | num n => simp [RadarrWf] at hwf
    | str s => simp [RadarrWf] at hwf
    | arr xs => simp [RadarrWf] at hwf

/-- C7 witness: the amended statement applied to the well-shaped (maximally
defaulted) empty-object payload, for both handlers. -/
theorem webhook_ok_wellformed_witness :
    (∃ act st', sonarr_webhook "A" 4 0 (some []) (.obj [])
      = .ok (("Webhook received", 200), act, st')) ∧
    (∃ act st', radarr_webhook "A" 4 0 (some []) (.obj [])
      = .ok (("Webhook received", 200), act, st')) :=
  ⟨(webhook_ok_wellformed "A" 4 0 (some []) (.obj [])).1 (by decide),
   (webhook_ok_wellformed "A" 4 0 (some []) (.obj [])).2 (by decide)⟩

/-! ## Congruence lemmas: the Sonarr handler reads only `episodes[0]` and the
other top-level fields -/

theorem pyGet_congr {kvs₁ kvs₂ : List (String × Json)} {k : String} (d : Json)
    (h : kvs₁.lookup k = kvs₂.lookup k) :
    pyGet (.obj kvs₁) k d = pyGet (.obj kvs₂) k d := by
  simp [pyGet, h]

theorem seriesTitle_congr {kvs₁ kvs₂ : List (String × Json)}
    (h : kvs₁.lookup "series" = kvs₂.lookup "series") :
    seriesTitle (.obj kvs₁) = seriesTitle (.obj kvs₂) := by
  simp [seriesTitle, pyGet, h]

theorem getPath3_congr {kvs₁ kvs₂ : List (String × Json)} {k1 : String} (k2 k3 : String)
    (d : Json) (h : kvs₁.lookup k1 = kvs₂.lookup k1) :
    getPath3 (.obj kvs₁) k1 k2 k3 d = getPath3 (.obj kvs₂) k1 k2 k3 d := by
  simp [getPath3, pyGet, h]

theorem getPath2_congr {kvs₁ kvs₂ : List (String × Json)} {k1 : String} (k2 : String)
    (d : Json) (h : kvs₁.lookup k1 = kvs₂.lookup k1) :
    getPath2 (.obj kvs₁) k1 k2 d = getPath2 (.obj kvs₂) k1 k2 d := by
  simp [getPath2, pyGet, h]

theorem epGet_congr {kvs₁ kvs₂ : List (String × Json)} {e : Json} {t₁ t₂ : List Json}
    (h1 : kvs₁.lookup "episodes" = some (.arr (e :: t₁)))
    (h2 : kvs₂.lookup "episodes" = some (.arr (e :: t₂))) :
    ∀ k d, epGet (.obj kvs₁) k d = epGet (.obj kvs₂) k d := by
  intro k d
  simp [epGet, pyGet, h1, h2, andThen, pyIndex0]

theorem is_english_dubbed_congr {kvs₁ kvs₂ : List (String × Json)}
    (h : ∀ k, k ≠ "episodes" → kvs₁.lookup k = kvs₂.lookup k) :
    is_english_dubbed (.obj kvs₁) = is_english_dubbed (.obj kvs₂) := by
  have e1 := @getPath3_congr kvs₁ kvs₂ "episodeFile" "mediaInfo" "audioLanguages"
    (.arr []) (h "episodeFile" (by decide))
  have e2 := @getPath3_congr kvs₁ kvs₂ "movieFile" "mediaInfo" "audioLanguages"
    (.arr []) (h "movieFile" (by decide))
  have e3 := @getPath2_congr kvs₁ kvs₂ "customFormatInfo" "customFormats"
    (.arr []) (h "customFormatInfo" (by decide))
  simp only [is_english_dubbed, e1, e2, e3]

theorem sonarrExtract_congr (maxDiff today : Nat) {kvs₁ kvs₂ : List (String × Json)}
    {e : Json} {t₁ t₂ : List Json}
    (h : ∀ k, k ≠ "episodes" → kvs₁.lookup k = kvs₂.lookup k)
    (h1 : kvs₁.lookup "episodes" = some (.arr (e :: t₁)))
    (h2 : kvs₂.lookup "episodes" = some (.arr (e :: t₂))) :
    sonarrExtract maxDiff today (.obj kvs₁) = sonarrExtract maxDiff today (.obj kvs₂) := by
  have ee := is_english_dubbed_congr h
  have es := seriesTitle_congr (h "series" (by decide))
  have eg := epGet_congr h1 h2
  have e_et := @pyGet_congr kvs₁ kvs₂ "eventType" (.str "") (h "eventType" (by decide))
  have e_up := @pyGet_congr kvs₁ kvs₂ "isUpgrade" (.bool false) (h "isUpgrade" (by decide))
  have e_dr := @pyGet_congr kvs₁ kvs₂ "deleteReason" .null (h "deleteReason" (by decide))
  simp only [sonarrExtract, e_et, es, eg, ee, e_up, e_dr]

/-! ## Claim C10 -/

/-- C10: two Sonarr payloads that agree on every top-level field except
`episodes`, and whose `episodes` arrays share the same first element, produce
exactly the same handler behaviour — the same response, the same ledger state
and the same classification/dispatch (including the arguments handed to the
background thread).  Episodes beyond the first are never read. -/
theorem sonarr_tail_episodes_irrelevant (lib : String) (maxDiff today : Nat)
    (st : Option (List String)) (kvs₁ kvs₂ : List (String × Json)) (e : Json)
    (t₁ t₂ : List Json)
    (h : ∀ k, k ≠ "episodes" → kvs₁.lookup k = kvs₂.lookup k)
    (h1 : kvs₁.lookup "episodes" = some (.arr (e :: t₁)))
    (h2 : kvs₂.lookup "episodes" = some (.arr (e :: t₂))) :
    sonarr_webhook lib maxDiff today st (.obj kvs₁) =
      sonarr_webhook lib maxDiff today st (.obj kvs₂) := by
  have hx := sonarrExtract_congr maxDiff today h h1 h2
  simp only [sonarr_webhook, hx]

/-- C10 witness: concrete payloads differing only in episodes after the first. -/
theorem sonarr_tail_episodes_irrelevant_witness :
    sonarr_webhook "Anime" 4 0 (some []) (.obj [("episodes", .arr [.obj []])]) =
      sonarr_webhook "Anime" 4 0 (some [])
        (.obj [("episodes", .arr [.obj [], .obj [("id", .num 9)]])]) :=
  sonarr_tail_episodes_irrelevant "Anime" 4 0 (some [])
    [("episodes", .arr [.obj []])] [("episodes", .arr [.obj [], .obj [("id", .num 9)]])]
    (.obj []) [] [.obj [("id", .num 9)]]
    (fun k hk => by simp [List.lookup, beq_eq_false_iff_ne.mpr hk]) rfl rfl
